import Mathlib

/-!
Verification development for the essay-import pipeline
(`importador_redacoes_streamlit.py`): a shallow embedding of the
validation-and-load pipeline, followed by theorems about its contracts.

Modelling conventions:
* a spreadsheet cell is `Cell` (null, integer, or string); fractional
  numeric cells are outside the modelled domain, since the identifier
  columns handled by the pipeline are integral;
* the pandas column-wise operations of the sanitization block are
  rendered row-wise (they are independent per row and row-aligned);
* database effects are explicit state passing: the destination table is
  a `List DestRow`, a chunk insert either commits whole or fails leaving
  the state unchanged (the source wraps each chunk in one transaction),
  and failure injection is an explicit parameter (`clearFail`, `failAt`).
-/

set_option autoImplicit false

/-- A spreadsheet cell value: missing (NaN/None), integral, or textual. -/
inductive Cell where
  | null
  | int (i : Int)
  | str (s : String)
deriving DecidableEq, Repr

/-- Python-style `strip` on the character list of a string. -/
def stripChars (l : List Char) : List Char :=
  ((l.dropWhile Char.isWhitespace).reverse.dropWhile Char.isWhitespace).reverse

/-- Whether the first character is `c` (`startswith` for one char). -/
def headIs (l : List Char) (c : Char) : Bool :=
  match l with
  | [] => false
  | a :: _ => a = c

/-- Whether the last character is `c` (`endswith` for one char). -/
def lastIs (l : List Char) (c : Char) : Bool :=
  match l with
  | [] => false
  | a :: rest => lastIs rest c || (rest = [] && a = c)

/-- Parse a string as an integer the way `pandas.to_numeric` does for
integral inputs: surrounding whitespace is ignored, an optional sign is
allowed, and anything else fails. -/
def parseIntStr (s : String) : Option Int :=
  let t := stripChars s.toList
  let core := if headIs t '-' ∨ headIs t '+' then t.drop 1 else t
  if core = [] ∨ ¬ (core.all Char.isDigit) then none
  else
    let n : Nat := core.foldl (fun acc c => acc * 10 + (c.toNat - 48)) 0
    if headIs t '-' then some (-(n : Int)) else some (n : Int)

/-- `pd.to_numeric(x, errors="coerce")` followed by `astype("Int64")`,
on the modelled cell domain: null and unparsable values become null. -/
def toNumeric (c : Cell) : Option Int :=
  match c with
  | Cell.null => none
  | Cell.int i => some i
  | Cell.str s => parseIntStr s

/-- `fillna("").astype(str)` applied to one cell. -/
def fillStr (c : Cell) : String :=
  match c with
  | Cell.null => ""
  | Cell.int i => toString i
  | Cell.str s => s

/-- One record of the uploaded file, restricted to the five required
columns (`SourceRow` of the spec). -/
structure SourceRow where
  redacao_id : Cell
  arquivo_nome_armazenamento : Cell
  tema : Cell
  redacao_texto : Cell
  co_redacao_grade_id : Cell
deriving DecidableEq, Repr

/-- A row that survived the sanitization block (lines 214-221 of the
source): id coerced to an integer, text fields default-filled,
`co_redacao_grade_id` coerced with null fallback. -/
structure CleanRow where
  redacao_id : Int
  arquivo_nome_armazenamento : String
  tema : String
  redacao_texto : String
  co_redacao_grade_id : Option Int
deriving DecidableEq, Repr

/-- The destination-table shape, fields in `INSERT_COLUMNS` order. -/
structure DestRow where
  redacao_id : Int
  corretor : String
  situacao_nota_zero : Cell
  nota_c1 : Int
  nota_c2 : Int
  nota_c3 : Int
  nota_c4 : Int
  nota_c5 : Int
  arquivo_nome_armazenamento : String
  tema : String
  redacao_texto : String
  co_redacao_grade_id : Option Int
  ocr_confianca : Cell
  arquivo_anonimo_nome_armazenamento : Cell
deriving DecidableEq, Repr

/-- The normalized table produced by `read_uploaded_file`: its column
names (already lowercased/underscored) and its rows. -/
structure Table where
  cols : List String
  rows : List SourceRow
deriving DecidableEq, Repr

def REQUIRED_COLUMNS : List String :=
  ["redacao_id", "arquivo_nome_armazenamento", "tema", "redacao_texto",
   "co_redacao_grade_id"]

/-- The sanitization block, per row: `dropna(subset=["redacao_id"])`,
`to_numeric(...).astype("Int64")` then a second `dropna`, `fillna("")`
`.astype(str)` on the three text columns, and `to_numeric` coercion of
`co_redacao_grade_id` (null on failure, row kept). -/
def sanitizeRow (r : SourceRow) : Option CleanRow :=
  if r.redacao_id = Cell.null then none
  else
    match toNumeric r.redacao_id with
    | none => none
    | some n =>
        some { redacao_id := n,
               arquivo_nome_armazenamento := fillStr r.arquivo_nome_armazenamento,
               tema := fillStr r.tema,
               redacao_texto := fillStr r.redacao_texto,
               co_redacao_grade_id := toNumeric r.co_redacao_grade_id }

/-- `drop_duplicates(subset=[key], keep="last")`: a row is kept exactly
when no later row shares its key; kept rows stay in their original
relative order. -/
def dropDupLast {α κ : Type} [DecidableEq κ] (key : α → κ) : List α → List α
  | [] => []
  | a :: rest =>
      if rest.any (fun x => decide (key x = key a)) then dropDupLast key rest
      else a :: dropDupLast key rest

/-- The fixed-defaults block plus the `INSERT_COLUMNS` projection:
`corretor="IA"`, `nota_c1..nota_c5 = 0`, the three nullable fields left
null. -/
def toDest (c : CleanRow) : DestRow :=
  { redacao_id := c.redacao_id,
    corretor := "IA",
    situacao_nota_zero := Cell.null,
    nota_c1 := 0, nota_c2 := 0, nota_c3 := 0, nota_c4 := 0, nota_c5 := 0,
    arquivo_nome_armazenamento := c.arquivo_nome_armazenamento,
    tema := c.tema,
    redacao_texto := c.redacao_texto,
    co_redacao_grade_id := c.co_redacao_grade_id,
    ocr_confianca := Cell.null,
    arquivo_anonimo_nome_armazenamento := Cell.null }

/-- Forget the fixed/derived fields of a destination row, recovering
the sanitized source fields it was projected from. -/
def forgetFixed (d : DestRow) : CleanRow :=
  { redacao_id := d.redacao_id,
    arquivo_nome_armazenamento := d.arquivo_nome_armazenamento,
    tema := d.tema,
    redacao_texto := d.redacao_texto,
    co_redacao_grade_id := d.co_redacao_grade_id }

/-- Line 208: `[c for c in REQUIRED_COLUMNS if c not in df.columns]`. -/
def missing_cols (tab : Table) : List String :=
  REQUIRED_COLUMNS.filter (fun c => decide (¬ c ∈ tab.cols))

/-- Lines 207-235 of the source: the required-column gate followed by
sanitization, deduplication (keep last), fixed defaults and projection.
On a missing column the error carries the full list of missing names. -/
def validate_and_normalize (tab : Table) :
    Except (List String) (List DestRow) :=
  if (missing_cols tab).isEmpty then
    Except.ok
      ((dropDupLast (fun c : CleanRow => c.redacao_id)
          (tab.rows.filterMap sanitizeRow)).map toDest)
  else
    Except.error (missing_cols tab)

/-- Rendering of the missing-columns error message (line 210). -/
def missingColsMessage (ms : List String) : String :=
  "A planilha está sem as colunas obrigatórias: " ++ String.intercalate ", " ms

/-! ## Bulk loader -/

/-- Outcome of the clear-then-insert protocol, carrying exactly what the
source reports: the fixed error strings, or the final inserted count on
success. -/
inductive LoadResult where
  | done (inserted : Nat)
  | clearFailed (msg : String)
  | insertFailed (msg : String)
deriving DecidableEq, Repr

/-- The message of line 299 (insert failure). It is a fixed text. -/
def insertMsg : String :=
  "Falha ao inserir registros. Verifique se as colunas e tipos estão corretos."

/-- The message of line 253 (clear failure). -/
def clearMsg : String :=
  "Falha ao limpar a tabela de destino. Verifique permissões de TRUNCATE/DELETE."

def CHUNK : Nat := 500

/-- The chunked insert loop (lines 281-297). `failAt` injects an insert
failure at the given zero-based chunk index, standing for the
`SQLAlchemyError` raised inside that chunk's transaction: the failing
chunk contributes no rows (its transaction rolls back) and the loop
stops. Returns the table state, the `inserted` counter, and the result. -/
def insertLoop (failAt : Option Nat) (k : Nat) (pending state : List DestRow)
    (inserted : Nat) : List DestRow × Nat × LoadResult :=
  if h : pending = [] then (state, inserted, LoadResult.done inserted)
  else if failAt = some k then (state, inserted, LoadResult.insertFailed insertMsg)
  else insertLoop failAt (k + 1) (pending.drop CHUNK)
        (state ++ pending.take CHUNK) (inserted + min CHUNK pending.length)
termination_by pending.length
decreasing_by
  simp only [List.length_drop, CHUNK]
  have hp : 0 < pending.length := List.length_pos.mpr h
  omega

/-- The load protocol (lines 244-300): clear the destination table
(TRUNCATE, with DELETE fallback — both leave it empty; a failure leaves
it unchanged), then insert in chunks of `CHUNK` rows. -/
def load (clearFail : Bool) (failAt : Option Nat)
    (table df_insert : List DestRow) : List DestRow × Nat × LoadResult :=
  if clearFail then (table, 0, LoadResult.clearFailed clearMsg)
  else insertLoop failAt 0 df_insert [] 0

/-- The outcome of one whole import action. -/
inductive ImportOutcome where
  | missingColumns (cols : List String)
  | nothingToImport
  | loaded (r : LoadResult)
deriving DecidableEq, Repr

/-- The import action (lines 195-300): validate and normalize, stop on
missing columns, stop with the distinguished "Nada para importar" outcome
when the batch is empty (line 239-241, before any write), otherwise run
the loader. Returns the destination-table state and the outcome. -/
def importAction (clearFail : Bool) (failAt : Option Nat) (tab : Table)
    (table : List DestRow) : List DestRow × ImportOutcome :=
  match validate_and_normalize tab with
  | Except.error ms => (table, ImportOutcome.missingColumns ms)
  | Except.ok df_insert =>
      if df_insert.length = 0 then (table, ImportOutcome.nothingToImport)
      else
        let res := load clearFail failAt table df_insert
        (res.1, ImportOutcome.loaded res.2.2)

/-! ## Connection provider -/

/-- The five environment settings read by `build_engine`; `none` models
an unset variable. -/
structure Env where
  DB_HOST : Option String
  DB_PORT : Option String
  DB_DATABASE : Option String
  DB_USERNAME : Option String
  DB_PASSWORD : Option String
deriving DecidableEq, Repr

/-- `_clean_env` (lines 84-93): trim, strip one bracket pair (trimming
again), then strip one pair of double or single quotes; computed on the
character list so that it is kernel-evaluable. -/
def clean_env (s : String) : String :=
  let l1 := stripChars s.toList
  let l2 :=
    if headIs l1 '[' ∧ lastIs l1 ']' then stripChars ((l1.drop 1).dropLast)
    else l1
  let qc : Char := Char.ofNat 34
  let ac : Char := Char.ofNat 39
  let l3 :=
    if (headIs l2 qc ∧ lastIs l2 qc) ∨ (headIs l2 ac ∧ lastIs l2 ac) then
      (l2.drop 1).dropLast
    else l2
  String.mk l3

/-- `_clean_env(os.getenv(...))`: an unset variable reads as the empty
string (with the `"3306"` default for the port handled at the call). -/
def clean_env_opt (s : Option String) : String :=
  match s with
  | none => ""
  | some v => clean_env v

def envHost (e : Env) : String := clean_env_opt e.DB_HOST
def envPort (e : Env) : String := clean_env (e.DB_PORT.getD "3306")
def envName (e : Env) : String := clean_env_opt e.DB_DATABASE
def envUser (e : Env) : String := clean_env_opt e.DB_USERNAME
def envPass (e : Env) : String := clean_env_opt e.DB_PASSWORD

/-- The `missing` list of lines 105-111: names of the settings that are
empty after cleaning, in the dictionary's order. -/
def missingVars (e : Env) : List String :=
  (([("DB_HOST", envHost e), ("DB_PORT", envPort e),
     ("DB_DATABASE", envName e), ("DB_USERNAME", envUser e),
     ("DB_PASSWORD", envPass e)]).filter
      (fun p => decide (p.2 = ""))).map Prod.fst

/-- The configuration error message (line 113): key names only. -/
def configMsg (missing : List String) : String :=
  "Variáveis ausentes no .env: " ++ String.intercalate ", " missing

/-- The connectivity error message (line 123): a fixed generic text. -/
def connMsg : String :=
  "Não foi possível conectar ao banco MySQL. Verifique host, porta e permissões."

/-- `build_engine` (lines 96-123). `connectOk` stands for the outcome of
the liveness probe (`SELECT 1`), which is decided by the external
database; on failure the source returns the fixed generic message. -/
def build_engine (e : Env) (connectOk : Bool) : Except String Unit :=
  if missingVars e = [] then
    (if connectOk then Except.ok () else Except.error connMsg)
  else Except.error (configMsg (missingVars e))

/-! ## Helper lemmas about deduplication -/

lemma dropDupLast_sublist {α κ : Type} [DecidableEq κ] (key : α → κ) :
    ∀ l : List α, List.Sublist (dropDupLast key l) l := by
  intro l
  induction l with
  | nil => simp [dropDupLast]
  | cons b rest ih =>
      rw [dropDupLast]
      split
      · exact ih.trans (List.sublist_cons_self b rest)
      · exact ih.cons₂ b

lemma mem_of_mem_dropDupLast {α κ : Type} [DecidableEq κ] {key : α → κ}
    {l : List α} {a : α} (h : a ∈ dropDupLast key l) : a ∈ l :=
  (dropDupLast_sublist key l).subset h

/-- Membership in the deduplicated list: an element survives exactly
when it is the last element of the list sharing its key. -/
lemma mem_dropDupLast {α κ : Type} [DecidableEq κ] (key : α → κ)
    (l : List α) (a : α) :
    a ∈ dropDupLast key l
      ↔ (l.filter (fun x => decide (key x = key a))).getLast? = some a := by
  induction l with
  | nil => simp [dropDupLast]
  | cons b rest ih =>
      rw [dropDupLast]
      by_cases hdup : rest.any (fun x => decide (key x = key b)) = true
      · rw [if_pos hdup]
        by_cases hpb : key b = key a
        · obtain ⟨x, hx, hkx⟩ := List.any_eq_true.mp hdup
          have hkxa : key x = key a := by
            rw [decide_eq_true_eq] at hkx; rw [hkx, hpb]
          have hxmem : x ∈ rest.filter (fun x => decide (key x = key a)) :=
            List.mem_filter.mpr ⟨hx, by simpa using hkxa⟩
          obtain ⟨c, t, hct⟩ := List.exists_cons_of_ne_nil
            (List.ne_nil_of_mem hxmem)
          rw [ih, List.filter_cons_of_pos (by simpa using hpb), hct,
            List.getLast?_cons_cons, ← hct]
        · rw [ih, List.filter_cons_of_neg (by simpa using hpb)]
      · rw [if_neg hdup]
        by_cases hpb : key b = key a
        · have hfrest : rest.filter (fun x => decide (key x = key a)) = [] := by
            rw [List.filter_eq_nil_iff]
            intro x hx hkx
            rw [decide_eq_true_eq] at hkx
            exact hdup (List.any_eq_true.mpr ⟨x, hx, by simp [hkx, hpb]⟩)
          rw [List.filter_cons_of_pos (by simpa using hpb), hfrest]
          simp only [List.getLast?_singleton, List.mem_cons, Option.some.injEq]
          constructor
          · rintro (rfl | hmem)
            · rfl
            · exact absurd
                (List.any_eq_true.mpr
                  ⟨a, mem_of_mem_dropDupLast hmem, by simp [hpb]⟩) hdup
          · intro hba; exact Or.inl hba.symm
        · rw [List.filter_cons_of_neg (by simpa using hpb)]
          simp only [List.mem_cons, ih]
          constructor
          · rintro (rfl | hmem)
            · exact absurd rfl hpb
            · exact hmem
          · exact Or.inr

/-- The keys of the deduplicated list are pairwise distinct. -/
lemma nodup_keys_dropDupLast {α κ : Type} [DecidableEq κ] (key : α → κ) :
    ∀ l : List α, ((dropDupLast key l).map key).Nodup := by
  intro l
  induction l with
  | nil => simp [dropDupLast]
  | cons b rest ih =>
      rw [dropDupLast]
      split
      · exact ih
      · rename_i hna
        simp only [List.map_cons, List.nodup_cons]
        refine ⟨?_, ih⟩
        intro hmem
        obtain ⟨x, hx, hkx⟩ := List.mem_map.mp hmem
        exact hna (List.any_eq_true.mpr
          ⟨x, mem_of_mem_dropDupLast hx, by simp [hkx]⟩)

/-! ## Helper lemmas about the insert loop -/

/-- With no injected failure, the loop appends the whole batch and the
counter advances by its length. -/
lemma insertLoop_none :
    ∀ (n : Nat) (pending : List DestRow), pending.length ≤ n →
      ∀ (k : Nat) (state : List DestRow) (ins : Nat),
        insertLoop none k pending state ins
          = (state ++ pending, ins + pending.length,
             LoadResult.done (ins + pending.length)) := by
  intro n
  induction n with
  | zero =>
      intro pending hlen k state ins
      have hp : pending = [] := List.length_eq_zero.mp (Nat.le_zero.mp hlen)
      subst hp
      rw [insertLoop]
      simp
  | succ n ih =>
      intro pending hlen k state ins
      by_cases hp : pending = []
      · subst hp; rw [insertLoop]; simp
      · rw [insertLoop]
        simp only [hp, dite_false, reduceCtorEq, if_false]
        have hpos : 0 < pending.length := List.length_pos.mpr hp
        rw [ih (pending.drop CHUNK)
          (by simp only [List.length_drop, CHUNK]; omega)]
        have hmin : min CHUNK pending.length + (pending.drop CHUNK).length
            = pending.length := by
          simp only [List.length_drop, CHUNK]; omega
        rw [List.append_assoc, List.take_append_drop]
        rw [Nat.add_assoc, hmin]

/-- With a failure injected at chunk `k0 + n` and `CHUNK * n` rows short
of exhausting `pending`, the loop commits exactly the first `n` chunks
after position `k0`, then halts with the fixed insert-failure message. -/
lemma insertLoop_fail :
    ∀ (n k0 : Nat) (pending state : List DestRow) (ins : Nat),
      CHUNK * n < pending.length →
      insertLoop (some (k0 + n)) k0 pending state ins
        = (state ++ pending.take (CHUNK * n), ins + CHUNK * n,
           LoadResult.insertFailed insertMsg) := by
  intro n
  induction n with
  | zero =>
      intro k0 pending state ins hlen
      have hp : pending ≠ [] := by
        intro h0; rw [h0] at hlen; simp at hlen
      rw [insertLoop]
      simp [hp]
  | succ n ih =>
      intro k0 pending state ins hlen
      have hchunk : CHUNK = 500 := rfl
      have hp : pending ≠ [] := by
        intro h0; rw [h0] at hlen; simp at hlen
      have hne : ¬ ((some (k0 + (n + 1)) : Option Nat) = some k0) := by
        simp only [Option.some.injEq]; omega
      rw [insertLoop]
      simp only [hp, dite_false, hne, if_false]
      have hk : k0 + (n + 1) = (k0 + 1) + n := by omega
      rw [hk, ih (k0 + 1) (pending.drop CHUNK)
        (state ++ pending.take CHUNK) (ins + min CHUNK pending.length)
        (by simp only [List.length_drop, hchunk] at hlen ⊢; omega)]
      have hmin : min CHUNK pending.length = CHUNK := by
        rw [hchunk] at hlen ⊢; omega
      have hsplit : CHUNK * (n + 1) = CHUNK + CHUNK * n := by
        rw [Nat.mul_succ, Nat.add_comm]
      rw [hmin, hsplit, List.take_add, ← List.append_assoc, Nat.add_assoc]

/-! ## Helper lemmas about sanitization and validation -/

/-- A row is dropped by sanitization exactly when its id fails integer
coercion (a null id always fails it, so the first `dropna` adds no
cases). -/
lemma sanitizeRow_eq_none (r : SourceRow) :
    sanitizeRow r = none ↔ toNumeric r.redacao_id = none := by
  unfold sanitizeRow
  by_cases hnull : r.redacao_id = Cell.null
  · simp [hnull, toNumeric]
  · simp only [hnull, if_false]
    cases htn : toNumeric r.redacao_id <;> simp

/-- A row whose id coerces survives sanitization, with its text fields
default-filled and its `co_redacao_grade_id` coerced (null on failure). -/
lemma sanitizeRow_of_some (r : SourceRow) (n : Int)
    (h : toNumeric r.redacao_id = some n) :
    sanitizeRow r
      = some { redacao_id := n,
               arquivo_nome_armazenamento := fillStr r.arquivo_nome_armazenamento,
               tema := fillStr r.tema,
               redacao_texto := fillStr r.redacao_texto,
               co_redacao_grade_id := toNumeric r.co_redacao_grade_id } := by
  have hnull : r.redacao_id ≠ Cell.null := by
    intro h0; rw [h0] at h; simp [toNumeric] at h
  unfold sanitizeRow
  simp only [hnull, if_false, h]

lemma sanitizeRow_id (r : SourceRow) :
    (sanitizeRow r).map (fun c => c.redacao_id) = toNumeric r.redacao_id := by
  cases htn : toNumeric r.redacao_id with
  | none =>
      rw [Option.map_eq_none']
      exact (sanitizeRow_eq_none r).mpr htn
  | some n => rw [sanitizeRow_of_some r n htn]; rfl

lemma forgetFixed_toDest (c : CleanRow) : forgetFixed (toDest c) = c := rfl

/-- Unpacking a successful validation: the batch is the sanitized,
deduplicated, projected row list. -/
lemma validate_ok {tab : Table} {batch : List DestRow}
    (h : validate_and_normalize tab = Except.ok batch) :
    batch = (dropDupLast (fun c : CleanRow => c.redacao_id)
      (tab.rows.filterMap sanitizeRow)).map toDest := by
  unfold validate_and_normalize at h
  split at h
  · exact (Except.ok.injEq _ _).mp h.symm
  · exact absurd h (by simp)

/-! ## Concrete fixtures -/

/-- The §8 scenario input: three rows, the first two sharing id 1. -/
def scenarioTable : Table :=
  { cols := REQUIRED_COLUMNS,
    rows := [ ⟨Cell.int 1, Cell.str "a.png", Cell.str "Tema A",
                Cell.str "Texto A", Cell.int 10⟩,
              ⟨Cell.int 1, Cell.str "b.png", Cell.str "Tema A",
                Cell.str "Texto B", Cell.int 10⟩,
              ⟨Cell.int 2, Cell.str "c.png", Cell.str "Tema B",
                Cell.str "Texto C", Cell.int 11⟩ ] }

def scenarioDest1 : DestRow := toDest ⟨1, "b.png", "Tema A", "Texto B", some 10⟩

def scenarioDest2 : DestRow := toDest ⟨2, "c.png", "Tema B", "Texto C", some 11⟩

/-- Two rows with the same valid id 1 and different file names. -/
def dupRowA : SourceRow :=
  ⟨Cell.int 1, Cell.str "a.png", Cell.str "T", Cell.str "A", Cell.int 10⟩

def dupRowB : SourceRow :=
  ⟨Cell.int 1, Cell.str "b.png", Cell.str "T", Cell.str "B", Cell.int 10⟩

def dupTable : Table := { cols := REQUIRED_COLUMNS, rows := [dupRowA, dupRowB] }

/-- All required columns present, every `redacao_id` blank. -/
def blankTable : Table :=
  { cols := REQUIRED_COLUMNS,
    rows := [ ⟨Cell.null, Cell.str "a.png", Cell.str "T", Cell.str "A", Cell.int 1⟩,
              ⟨Cell.str " ", Cell.str "b.png", Cell.str "T", Cell.str "B", Cell.int 2⟩ ] }

/-- A synthetic destination row used for loader fixtures. -/
def mkDest (i : Nat) : DestRow := toDest ⟨Int.ofNat i, "f.png", "t", "x", none⟩

def demo600 : List DestRow := (List.range 600).map mkDest

def demo1200 : List DestRow := (List.range 1200).map mkDest

/-! ## Claim theorems -/

/-- C2: deduplication keeps, for each `redacao_id`, exactly the last
occurrence in file order (an element survives `drop_duplicates`'s
keep-last semantics exactly when it is the last element carrying its id,
and the surviving ids are pairwise distinct), and on the §8 scenario the
batch is exactly id 1 with "Texto B"/"b.png" followed by id 2 with
"Texto C"/"c.png". -/
theorem c2_dedup_keeps_last (l : List CleanRow) (c : CleanRow) :
    (c ∈ dropDupLast (fun x : CleanRow => x.redacao_id) l
      ↔ (l.filter (fun x => decide (x.redacao_id = c.redacao_id))).getLast?
          = some c)
    ∧ ((dropDupLast (fun x : CleanRow => x.redacao_id) l).map
        (fun x => x.redacao_id)).Nodup
    ∧ validate_and_normalize scenarioTable
        = Except.ok [scenarioDest1, scenarioDest2] :=
  ⟨mem_dropDupLast _ l c, nodup_keys_dropDupLast _ l, rfl⟩

/-- Witness for C2 at a concrete two-row duplicate list. -/
theorem c2_dedup_keeps_last_witness :
    ((⟨1, "b", "t", "x", none⟩ : CleanRow)
        ∈ dropDupLast (fun x : CleanRow => x.redacao_id)
            [⟨1, "a", "t", "x", none⟩, ⟨1, "b", "t", "x", none⟩]
      ↔ ([(⟨1, "a", "t", "x", none⟩ : CleanRow), ⟨1, "b", "t", "x", none⟩].filter
          (fun x => decide (x.redacao_id = (1 : Int)))).getLast?
          = some ⟨1, "b", "t", "x", none⟩)
    ∧ ((dropDupLast (fun x : CleanRow => x.redacao_id)
          [(⟨1, "a", "t", "x", none⟩ : CleanRow), ⟨1, "b", "t", "x", none⟩]).map
        (fun x => x.redacao_id)).Nodup
    ∧ validate_and_normalize scenarioTable
        = Except.ok [scenarioDest1, scenarioDest2] :=
  c2_dedup_keeps_last [⟨1, "a", "t", "x", none⟩, ⟨1, "b", "t", "x", none⟩]
    ⟨1, "b", "t", "x", none⟩

/-- C3: every row of a produced batch has `corretor = "IA"`, all five
criterion scores equal to 0, the three nullable fields null, and the
batch ids are pairwise distinct (`redacao_id` is an `Int`, hence
non-null, by construction of the projection). -/
theorem c3_fixed_defaults (tab : Table) (batch : List DestRow)
    (h : validate_and_normalize tab = Except.ok batch) :
    (∀ d ∈ batch, d.corretor = "IA" ∧ d.nota_c1 = 0 ∧ d.nota_c2 = 0
      ∧ d.nota_c3 = 0 ∧ d.nota_c4 = 0 ∧ d.nota_c5 = 0
      ∧ d.situacao_nota_zero = Cell.null ∧ d.ocr_confianca = Cell.null
      ∧ d.arquivo_anonimo_nome_armazenamento = Cell.null)
    ∧ (batch.map (fun d => d.redacao_id)).Nodup := by
  have hb := validate_ok h
  subst hb
  constructor
  · intro d hd
    obtain ⟨c, _, rfl⟩ := List.mem_map.mp hd
    exact ⟨rfl, rfl, rfl, rfl, rfl, rfl, rfl, rfl, rfl⟩
  · rw [List.map_map]
    have hcomp : (fun d : DestRow => d.redacao_id) ∘ toDest
        = fun c : CleanRow => c.redacao_id := funext fun c => rfl
    rw [hcomp]
    exact nodup_keys_dropDupLast _ _

/-- Witness for C3 at the §8 scenario. -/
theorem c3_fixed_defaults_witness :
    (∀ d ∈ [scenarioDest1, scenarioDest2], d.corretor = "IA" ∧ d.nota_c1 = 0
      ∧ d.nota_c2 = 0 ∧ d.nota_c3 = 0 ∧ d.nota_c4 = 0 ∧ d.nota_c5 = 0
      ∧ d.situacao_nota_zero = Cell.null ∧ d.ocr_confianca = Cell.null
      ∧ d.arquivo_anonimo_nome_armazenamento = Cell.null)
    ∧ ([scenarioDest1, scenarioDest2].map (fun d => d.redacao_id)).Nodup :=
  c3_fixed_defaults scenarioTable [scenarioDest1, scenarioDest2] rfl

/-- C5: whenever some required column is absent, validation fails with
the error carrying every missing required name (membership in the
carried list is exactly "required and absent"), and the import action
stops there: the destination state is untouched and the loader is never
invoked. -/
theorem c5_missing_columns_gate (tab : Table) (cf : Bool) (fa : Option Nat)
    (st : List DestRow) (h : ∃ c ∈ REQUIRED_COLUMNS, ¬ c ∈ tab.cols) :
    validate_and_normalize tab = Except.error (missing_cols tab)
    ∧ (∀ c, c ∈ missing_cols tab ↔ (c ∈ REQUIRED_COLUMNS ∧ ¬ c ∈ tab.cols))
    ∧ importAction cf fa tab st
        = (st, ImportOutcome.missingColumns (missing_cols tab)) := by
  obtain ⟨c0, hc0, hc0n⟩ := h
  have hmem : c0 ∈ missing_cols tab :=
    List.mem_filter.mpr ⟨hc0, by simpa using hc0n⟩
  have hne : missing_cols tab ≠ [] := List.ne_nil_of_mem hmem
  have hval : validate_and_normalize tab
      = Except.error (missing_cols tab) := by
    unfold validate_and_normalize
    rw [if_neg (by simpa [List.isEmpty_iff] using hne)]
  refine ⟨hval, ?_, ?_⟩
  · intro c
    simp [missing_cols, List.mem_filter]
  · unfold importAction
    rw [hval]

/-- Witness for C5: a table having only the id column. -/
theorem c5_missing_columns_gate_witness :
    (∃ c ∈ REQUIRED_COLUMNS,
      ¬ c ∈ (Table.mk ["redacao_id"] []).cols)
    ∧ (validate_and_normalize (Table.mk ["redacao_id"] [])
        = Except.error (missing_cols (Table.mk ["redacao_id"] []))
      ∧ (∀ c, c ∈ missing_cols (Table.mk ["redacao_id"] [])
          ↔ (c ∈ REQUIRED_COLUMNS ∧ ¬ c ∈ (Table.mk ["redacao_id"] []).cols))
      ∧ importAction false none (Table.mk ["redacao_id"] []) []
          = ([], ImportOutcome.missingColumns
              (missing_cols (Table.mk ["redacao_id"] [])))) :=
  ⟨by decide,
   c5_missing_columns_gate (Table.mk ["redacao_id"] []) false none []
     (by decide)⟩

/-- C7: all required columns present but no row surviving validation
yields the empty batch, surfaced as the distinguished nothing-to-import
outcome before any write: the destination state is returned unchanged
(no clear, no insert). -/
theorem c7_empty_nothing_to_import (tab : Table) (cf : Bool)
    (fa : Option Nat) (st : List DestRow) (hcols : missing_cols tab = [])
    (hempty : tab.rows.filterMap sanitizeRow = []) :
    validate_and_normalize tab = Except.ok []
    ∧ importAction cf fa tab st = (st, ImportOutcome.nothingToImport) := by
  have hval : validate_and_normalize tab = Except.ok [] := by
    unfold validate_and_normalize
    rw [if_pos (by simp [hcols])]
    rw [hempty]
    rfl
  refine ⟨hval, ?_⟩
  unfold importAction
  rw [hval]
  rfl

/-- Witness for C7: all five columns present, every id blank. -/
theorem c7_empty_nothing_to_import_witness :
    (missing_cols blankTable = []
      ∧ blankTable.rows.filterMap sanitizeRow = [])
    ∧ (validate_and_normalize blankTable = Except.ok []
      ∧ importAction true (some 0) blankTable [mkDest 7]
          = ([mkDest 7], ImportOutcome.nothingToImport)) :=
  ⟨⟨rfl, rfl⟩,
   c7_empty_nothing_to_import blankTable true (some 0) [mkDest 7] rfl rfl⟩

/-- C6 counterexample: a row with a non-null, integer-coercible
`redacao_id` (id 1, file "a.png") is nevertheless absent from the
ImportBatch, because a later row shares its id and deduplication keeps
only the last occurrence. So "a row appears in the ImportBatch if and
only if its id is coercible" is false as stated. -/
theorem c6_valid_row_removed_by_dedup :
    toNumeric dupRowA.redacao_id = some 1
    ∧ validate_and_normalize dupTable
        = Except.ok [toDest ⟨1, "b.png", "T", "B", some 10⟩]
    ∧ (∀ d ∈ [toDest (⟨1, "b.png", "T", "B", some 10⟩ : CleanRow)],
        ¬ d.arquivo_nome_armazenamento = "a.png") :=
  ⟨rfl, rfl, by decide⟩

/-- C6 amended: a row survives the sanitization stage iff its
`redacao_id` coerces to an integer (null and blank ids fail coercion); a
surviving row keeps its default-filled text fields and its coerced
`co_redacao_grade_id`, which becomes null on coercion failure without
discarding the row; and a destination row appears in the final batch iff
it is the projection of the last surviving occurrence of its id. -/
theorem c6_row_filtering (tab : Table) (batch : List DestRow)
    (h : validate_and_normalize tab = Except.ok batch) :
    (∀ r : SourceRow, sanitizeRow r = none ↔ toNumeric r.redacao_id = none)
    ∧ (∀ (r : SourceRow) (n : Int), toNumeric r.redacao_id = some n →
        sanitizeRow r = some
          { redacao_id := n,
            arquivo_nome_armazenamento := fillStr r.arquivo_nome_armazenamento,
            tema := fillStr r.tema,
            redacao_texto := fillStr r.redacao_texto,
            co_redacao_grade_id := toNumeric r.co_redacao_grade_id })
    ∧ (∀ d : DestRow, d ∈ batch ↔
        ∃ c : CleanRow,
          ((tab.rows.filterMap sanitizeRow).filter
              (fun x => decide (x.redacao_id = c.redacao_id))).getLast?
            = some c
          ∧ d = toDest c) := by
  have hb := validate_ok h
  subst hb
  refine ⟨sanitizeRow_eq_none, sanitizeRow_of_some, ?_⟩
  intro d
  rw [List.mem_map]
  constructor
  · rintro ⟨c, hc, rfl⟩
    exact ⟨c, (mem_dropDupLast _ _ c).mp hc, rfl⟩
  · rintro ⟨c, hc, rfl⟩
    exact ⟨c, (mem_dropDupLast _ _ c).mpr hc, rfl⟩

/-- Witness for C6 (amended) at the §8 scenario, with the quantified
parts instantiated: a blank-id row is dropped, a valid duplicate-id row
keeps its normalized fields, and the batch-membership criterion holds of
the first scenario output row. -/
theorem c6_row_filtering_witness :
    (sanitizeRow ⟨Cell.str " ", Cell.str "z", Cell.null, Cell.null, Cell.null⟩
        = none
      ↔ toNumeric (Cell.str " ") = none)
    ∧ (sanitizeRow dupRowA = some ⟨1, "a.png", "T", "A", some 10⟩)
    ∧ (scenarioDest1 ∈ [scenarioDest1, scenarioDest2] ↔
        ∃ c : CleanRow,
          ((scenarioTable.rows.filterMap sanitizeRow).filter
              (fun x => decide (x.redacao_id = c.redacao_id))).getLast?
            = some c
          ∧ scenarioDest1 = toDest c) := by
  have h := c6_row_filtering scenarioTable [scenarioDest1, scenarioDest2] rfl
  exact ⟨h.1 _, h.2.1 dupRowA 1 rfl, h.2.2 scenarioDest1⟩

/-- C10: validation never reorders surviving rows. The batch, projected
back to its sanitized source fields, is a sublist (order-preserving
selection) of the sanitized input sequence, and the batch's id sequence
is a sublist of the input's coercible-id sequence in file order. -/
theorem c10_order_preserved (tab : Table) (batch : List DestRow)
    (h : validate_and_normalize tab = Except.ok batch) :
    List.Sublist (batch.map forgetFixed) (tab.rows.filterMap sanitizeRow)
    ∧ List.Sublist (batch.map (fun d => d.redacao_id))
        (tab.rows.filterMap (fun r => toNumeric r.redacao_id)) := by
  have hb := validate_ok h
  subst hb
  have hback :
      ((dropDupLast (fun c : CleanRow => c.redacao_id)
          (tab.rows.filterMap sanitizeRow)).map toDest).map forgetFixed
        = dropDupLast (fun c : CleanRow => c.redacao_id)
            (tab.rows.filterMap sanitizeRow) := by
    rw [List.map_map]
    have hcomp : forgetFixed ∘ toDest = id := funext fun c => rfl
    rw [hcomp, List.map_id]
  constructor
  · rw [hback]
    exact dropDupLast_sublist _ _
  · have h1 :
        ((dropDupLast (fun c : CleanRow => c.redacao_id)
            (tab.rows.filterMap sanitizeRow)).map toDest).map
          (fun d => d.redacao_id)
          = (dropDupLast (fun c : CleanRow => c.redacao_id)
              (tab.rows.filterMap sanitizeRow)).map
              (fun c : CleanRow => c.redacao_id) := by
      rw [List.map_map]
      rfl
    have h2 : (tab.rows.filterMap sanitizeRow).map
          (fun c : CleanRow => c.redacao_id)
        = tab.rows.filterMap (fun r => toNumeric r.redacao_id) := by
      rw [List.map_filterMap]
      congr 1
      funext r
      exact sanitizeRow_id r
    rw [h1, ← h2]
    exact (dropDupLast_sublist _ _).map _

/-- Witness for C10 at the §8 scenario. -/
theorem c10_order_preserved_witness :
    List.Sublist ([scenarioDest1, scenarioDest2].map forgetFixed)
      (scenarioTable.rows.filterMap sanitizeRow)
    ∧ List.Sublist ([scenarioDest1, scenarioDest2].map (fun d => d.redacao_id))
        (scenarioTable.rows.filterMap (fun r => toNumeric r.redacao_id)) :=
  c10_order_preserved scenarioTable [scenarioDest1, scenarioDest2] rfl

/-- A failure-free load replaces the table contents with the batch. -/
lemma load_none (t B : List DestRow) :
    load false none t B = (B, B.length, LoadResult.done B.length) := by
  unfold load
  rw [if_neg (by simp)]
  rw [insertLoop_none B.length B le_rfl 0 [] 0]
  simp

/-- A load with a failure injected at chunk `k` (zero-based), when chunk
`k` exists, commits exactly the earlier chunks and halts with the fixed
message; the `inserted` counter equals the committed row count. -/
lemma load_fail (B t : List DestRow) (k : Nat) (h : CHUNK * k < B.length) :
    load false (some k) t B
      = (B.take (CHUNK * k), CHUNK * k, LoadResult.insertFailed insertMsg) := by
  unfold load
  rw [if_neg (by simp)]
  have hf := insertLoop_fail k 0 B [] 0 h
  simpa using hf

/-- C9: the load is a full replace, hence re-importing the same batch is
idempotent: one failure-free load leaves exactly the batch as the table
contents, and a second load of the same batch leaves the same visible
state. -/
theorem c9_load_idempotent (t B : List DestRow) :
    load false none t B = (B, B.length, LoadResult.done B.length)
    ∧ (load false none ((load false none t B).1) B).1
        = (load false none t B).1 := by
  refine ⟨load_none t B, ?_⟩
  simp only [load_none]

/-- Witness for C9 at a concrete state and batch. -/
theorem c9_load_idempotent_witness :
    load false none [mkDest 9] demo600
        = (demo600, demo600.length, LoadResult.done demo600.length)
    ∧ (load false none ((load false none [mkDest 9] demo600).1) demo600).1
        = (load false none [mkDest 9] demo600).1 :=
  c9_load_idempotent [mkDest 9] demo600

/-- C4: the batch is split in consecutive chunks of `CHUNK = 500` rows,
each chunk all-or-nothing; a failure while inserting chunk `k`
(zero-based) leaves exactly the first `k` full chunks durably present
(the first `500 k` rows of the batch, in order) and the `inserted`
counter equal to that row count. The 1200-row instance with the failure
in the third chunk is the witness below. -/
theorem c4_chunk_atomicity (B t : List DestRow) (k : Nat)
    (h : CHUNK * k < B.length) :
    load false (some k) t B
      = (B.take (CHUNK * k), CHUNK * k, LoadResult.insertFailed insertMsg)
    ∧ (load false (some k) t B).1.length = CHUNK * k := by
  refine ⟨load_fail B t k h, ?_⟩
  rw [load_fail B t k h]
  simp only [List.length_take]
  exact Nat.min_eq_left (Nat.le_of_lt h)

/-- Witness for C4: 1200 rows, failure during the third chunk, exactly
1000 rows durable and a counter of 1000. -/
theorem c4_chunk_atomicity_witness :
    CHUNK * 2 < demo1200.length
    ∧ (load false (some 2) [] demo1200
          = (demo1200.take 1000, 1000, LoadResult.insertFailed insertMsg)
      ∧ (load false (some 2) [] demo1200).1.length = 1000) := by
  have hlen : CHUNK * 2 < demo1200.length := by
    simp only [demo1200, List.length_map, List.length_range]
    decide
  refine ⟨hlen, ?_⟩
  have h := c4_chunk_atomicity demo1200 [] 2 hlen
  rw [show CHUNK * 2 = 1000 from rfl] at h
  exact h

/-- C1 counterexample: the claim says the reported insert error carries
the exact inserted count. But two failing runs with different durable
counts (0 rows versus 500 rows inserted) report the very same error
value — the fixed message of line 299 — so the report cannot carry (and
omits) the inserted count. -/
theorem c1_inserted_count_not_in_error :
    (load false (some 0) [] demo600).2.2 = (load false (some 1) [] demo600).2.2
    ∧ (load false (some 0) [] demo600).2.1 = 0
    ∧ (load false (some 1) [] demo600).2.1 = 500
    ∧ (load false (some 0) [] demo600).1.length = 0
    ∧ (load false (some 1) [] demo600).1.length = 500 := by
  have hlen : demo600.length = 600 := by
    simp only [demo600, List.length_map, List.length_range]
  have h0 := load_fail demo600 [] 0 (by rw [hlen]; decide)
  have h1 := load_fail demo600 [] 1 (by rw [hlen]; decide)
  rw [show CHUNK * 0 = 0 from rfl] at h0
  rw [show CHUNK * 1 = 500 from rfl] at h1
  rw [h0, h1]
  refine ⟨rfl, rfl, rfl, rfl, ?_⟩
  rw [List.length_take, hlen]
  decide

/-- C1 amended: on an insert failure at chunk `k` the pipeline halts at
once — the durable state is exactly the chunks committed before the
failure and no later chunk is attempted — and the `inserted` counter
holds the true committed count; the reported error, however, is the
fixed generic message, which does not include that count. -/
theorem c1_insert_failure_halts (B t : List DestRow) (k : Nat)
    (h : CHUNK * k < B.length) :
    (load false (some k) t B).2.2 = LoadResult.insertFailed insertMsg
    ∧ (load false (some k) t B).1 = B.take (CHUNK * k)
    ∧ (load false (some k) t B).2.1 = CHUNK * k := by
  rw [load_fail B t k h]
  exact ⟨rfl, rfl, rfl⟩

/-- Witness for C1 (amended): failure at the second chunk of a 600-row
batch. -/
theorem c1_insert_failure_halts_witness :
    CHUNK * 1 < demo600.length
    ∧ ((load false (some 1) [] demo600).2.2
          = LoadResult.insertFailed insertMsg
      ∧ (load false (some 1) [] demo600).1 = demo600.take (CHUNK * 1)
      ∧ (load false (some 1) [] demo600).2.1 = CHUNK * 1) := by
  have hlen : CHUNK * 1 < demo600.length := by
    simp only [demo600, List.length_map, List.length_range]
    decide
  exact ⟨hlen, c1_insert_failure_halts demo600 [] 1 hlen⟩

/-- Configuration with every setting present and a non-empty password. -/
def envA : Env := ⟨some "h", some "3306", some "d", some "u", some "x"⟩

/-- The same configuration except that the password value is empty. -/
def envB : Env := ⟨some "h", some "3306", some "d", some "u", some ""⟩

/-- C8 counterexample: two runs differing only in the password value do
NOT always produce the same error message. With password "x" and an
unreachable database the error is the generic connectivity text; with
password "" the error is the configuration message naming
`DB_PASSWORD` — a different text. The claim's unconditional
value-independence fails when the two values differ in emptiness after
cleaning. -/
theorem c8_password_value_changes_error :
    envA.DB_HOST = envB.DB_HOST ∧ envA.DB_PORT = envB.DB_PORT
    ∧ envA.DB_DATABASE = envB.DB_DATABASE
    ∧ envA.DB_USERNAME = envB.DB_USERNAME
    ∧ ¬ envA.DB_PASSWORD = envB.DB_PASSWORD
    ∧ build_engine envA false = Except.error connMsg
    ∧ build_engine envB false = Except.error (configMsg ["DB_PASSWORD"])
    ∧ ¬ connMsg = configMsg ["DB_PASSWORD"] :=
  ⟨rfl, rfl, rfl, rfl, by decide, rfl, rfl, by decide⟩

/-- C8 amended: no error message contains credential values. The
missing-settings list names exactly the settings that are empty after
cleaning (key names only), the connectivity error is a fixed generic
text, and the whole result of `build_engine` depends only on which
settings are empty after cleaning and on the connectivity outcome: two
configurations agreeing on emptiness after cleaning — whatever their
actual host, user and password values — yield identical results, so no
non-empty secret value can influence (or appear in) any message. -/
theorem c8_error_independent_of_secrets (e1 e2 : Env) (ok : Bool)
    (hH : envHost e1 = "" ↔ envHost e2 = "")
    (hP : envPort e1 = "" ↔ envPort e2 = "")
    (hD : envName e1 = "" ↔ envName e2 = "")
    (hU : envUser e1 = "" ↔ envUser e2 = "")
    (hW : envPass e1 = "" ↔ envPass e2 = "") :
    missingVars e1 = missingVars e2
    ∧ build_engine e1 ok = build_engine e2 ok
    ∧ (∀ e : Env, missingVars e = [] →
        build_engine e false = Except.error connMsg)
    ∧ (∀ (e : Env) (c : String), c ∈ missingVars e ↔
        ((c = "DB_HOST" ∧ envHost e = "") ∨ (c = "DB_PORT" ∧ envPort e = "")
          ∨ (c = "DB_DATABASE" ∧ envName e = "")
          ∨ (c = "DB_USERNAME" ∧ envUser e = "")
          ∨ (c = "DB_PASSWORD" ∧ envPass e = ""))) := by
  have hmiss : missingVars e1 = missingVars e2 := by
    unfold missingVars
    by_cases h1 : envHost e1 = "" <;> by_cases h2 : envPort e1 = "" <;>
      by_cases h3 : envName e1 = "" <;> by_cases h4 : envUser e1 = "" <;>
      by_cases h5 : envPass e1 = "" <;>
      simp_all [List.filter_cons]
  refine ⟨hmiss, ?_, ?_, ?_⟩
  · simp only [build_engine, hmiss]
  · intro e he
    unfold build_engine
    rw [if_pos he]
    rfl
  · intro e c
    unfold missingVars
    constructor
    · intro hc
      obtain ⟨p, hp, rfl⟩ := List.mem_map.mp hc
      have hpf := List.mem_filter.mp hp
      have hmem := hpf.1
      have hval : p.2 = "" := by simpa using hpf.2
      fin_cases hmem <;> simp_all
    · rintro (⟨rfl, hv⟩ | ⟨rfl, hv⟩ | ⟨rfl, hv⟩ | ⟨rfl, hv⟩ | ⟨rfl, hv⟩)
      · exact List.mem_map.mpr ⟨("DB_HOST", envHost e),
          List.mem_filter.mpr ⟨by simp, by simpa using hv⟩, rfl⟩
      · exact List.mem_map.mpr ⟨("DB_PORT", envPort e),
          List.mem_filter.mpr ⟨by simp, by simpa using hv⟩, rfl⟩
      · exact List.mem_map.mpr ⟨("DB_DATABASE", envName e),
          List.mem_filter.mpr ⟨by simp, by simpa using hv⟩, rfl⟩
      · exact List.mem_map.mpr ⟨("DB_USERNAME", envUser e),
          List.mem_filter.mpr ⟨by simp, by simpa using hv⟩, rfl⟩
      · exact List.mem_map.mpr ⟨("DB_PASSWORD", envPass e),
          List.mem_filter.mpr ⟨by simp, by simpa using hv⟩, rfl⟩

/-- Witness for C8 (amended): two configurations with different
non-empty passwords ("x" versus "switched-secret") and the same
emptiness pattern produce identical results. -/
theorem c8_error_independent_of_secrets_witness :
    ((envHost envA = "" ↔ envHost ⟨some "h2", some "3306", some "d2", some "u2", some "switched-secret"⟩ = "")
      ∧ (envPass envA = "" ↔ envPass ⟨some "h2", some "3306", some "d2", some "u2", some "switched-secret"⟩ = ""))
    ∧ missingVars envA = missingVars ⟨some "h2", some "3306", some "d2", some "u2", some "switched-secret"⟩
    ∧ build_engine envA false = build_engine ⟨some "h2", some "3306", some "d2", some "u2", some "switched-secret"⟩ false := by
  have h := c8_error_independent_of_secrets envA
    ⟨some "h2", some "3306", some "d2", some "u2", some "switched-secret"⟩
    false (by decide) (by decide) (by decide) (by decide) (by decide)
  exact ⟨⟨by decide, by decide⟩, h.1, h.2.1⟩
